import Mathlib

/-!
Shallow embedding of `SEDkit/synphot.py` and verification of the spec's
claims about it.

Conventions of the embedding:
* Python floats that carry physically meaningful (finite) values are
  modelled as `ℝ` where real-exponential arithmetic is involved
  (`mag2flux`) and as `ℚ` where only field arithmetic is involved
  (wavelength arrays, unit conversion factors, the parameter grid), so
  that the definitions stay executable there.
* A raised Python exception is an `Except.error` / an explicit error
  constructor; the distinguishable exception classes are in `PyErr`.
* External collaborators (the `pysynphot` model-spectrum source `Icat`,
  the `renorm` method, and the `synthetic_magnitude` integrator, which is
  not defined in this module) are oracle parameters of the pipeline
  functions, so every theorem quantifies over their behaviour.
-/

/-- Python exception classes that the embedding distinguishes. -/
inductive PyErr where
  | typeError
  | valueError
deriving DecidableEq, Repr

/-! ## Floats with NaN, for `mag2flux` uncertainty propagation

`mag2flux` (synphot.py lines 90-111) injects `np.nan` as the uncertainty
when a bare float magnitude is given, and multiplies/divides the
uncertainty through.  NaN absorbs those operations in IEEE arithmetic. -/

/-- A float value as used by the uncertainty arithmetic of `mag2flux`:
an ordinary finite number, or the quiet NaN that numpy propagates. -/
inductive FP where
  | num : ℝ → FP
  | nan : FP

/-- IEEE multiplication restricted to the values `mag2flux` produces:
NaN absorbs, finite values multiply. -/
noncomputable def FP.mul : FP → FP → FP
  | .num a, .num b => .num (a * b)
  | _, _ => .nan

/-- IEEE division restricted to the values `mag2flux` produces (the only
divisor used is the literal 2.5, which is nonzero): NaN absorbs. -/
noncomputable def FP.div : FP → FP → FP
  | .num a, .num b => .num (a / b)
  | _, _ => .nan

/-- The `mag` argument of `mag2flux`: a bare Python float, a bare Python
int, or a `(magnitude, uncertainty)` sequence.  Magnitude values are
modelled as finite reals; the uncertainty slot may hold NaN. -/
inductive PyMag where
  | pyFloat : ℝ → PyMag
  | pyInt : ℤ → PyMag
  | pyPair : ℝ → FP → PyMag

/-- Lines 103-104 followed by the subscripts `mag[0]`, `mag[1]` of
lines 108-109: a bare float is first wrapped into `(mag, np.nan)`;
a pair is subscripted as is; a bare int is NOT wrapped (`isinstance(mag,
float)` is false for Python ints), so `mag[0]` subscripts an int, which
raises `TypeError`. -/
def magIndex : PyMag → Except PyErr (ℝ × FP)
  | .pyFloat m => .ok (m, .nan)
  | .pyPair m u => .ok (m, u)
  | .pyInt _ => .error .typeError

/-- `mag2flux` (synphot.py lines 90-111).  `zp` is the bandpass zero
point `(bandpass.svo.ZeroPoint * ZeroPointUnit)` already converted to the
target flux unit (the `.to(units)` conversions multiply by a fixed
positive factor, so the converted value is taken as the parameter).
Computes `f = zp * 10 ** (mag[0] / -2.5)` and
`sig_f = f * mag[1] * log(10) / 2.5`, returning the pair. -/
noncomputable def mag2flux (zp : ℝ) (mag : PyMag) : Except PyErr (ℝ × FP) :=
  match magIndex mag with
  | .error e => .error e
  | .ok (m, u) =>
    let f : ℝ := zp * (10 : ℝ) ^ (m / (-2.5))
    let sig_f : FP := FP.div (FP.mul (FP.mul (.num f) u) (.num (Real.log 10))) (.num 2.5)
    .ok (f, sig_f)

/-! ## Bandpass wavelength-unit handling (synphot.py lines 56-87)

Astropy length units are interconverted by a fixed positive exchange
rate; a unit is modelled by its conversion factor to angstrom.  The
setter guards its argument twice.  The `isinstance` check on line 71
accepts exactly the classes `PrefixUnit`, `Unit` and `CompositeUnit`;
astropy's `IrreducibleUnit` is a sibling of `Unit` (both subclass
`NamedUnit`), NOT a subclass of it, so an irreducible unit — including
the base length unit `u.m` (meter), which IS convertible to a length —
fails this check and raises `TypeError`, as does any non-unit object.
Then `wave_units.to(q.um)` on line 76 raises for accepted-class units of
a non-length dimension, caught by the bare `except` and re-raised as
`TypeError` (line 78).  Only length-convertible units of the accepted
classes (e.g. `u.um`, `u.nm`, `u.AA`) reach the mutation. -/

/-- A length unit, identified by its exchange rate to angstrom. -/
structure LengthUnit where
  toAA : ℚ
deriving DecidableEq, Repr

/-- The possible arguments to the `wave_units` setter:
* `unitLen u`: a length-convertible unit of the accepted classes
  (`PrefixUnit`/`Unit`/`CompositeUnit`), the only case passing both
  checks;
* `irredLen u`: a length-convertible `IrreducibleUnit` such as `u.m`,
  rejected by the line-71 `isinstance` check despite being a valid
  length unit;
* `unitNonLen`: an accepted-class unit not convertible to a length,
  rejected by the `.to(q.um)` probe on line 76;
* `nonUnit`: anything else that fails the line-71 `isinstance` check
  (non-unit objects, and irreducible units of non-length dimensions
  such as `u.s`). -/
inductive UnitArg where
  | unitLen (u : LengthUnit)
  | irredLen (u : LengthUnit)
  | unitNonLen
  | nonUnit
deriving DecidableEq, Repr

/-- The state of a `Bandpass` relevant to the `wave_units` property:
the wavelength array (expressed in the current `wave_units`), the
throughput array, and the effective wavelength stored as an astropy
quantity (a value `effVal` tagged with its own unit `effUnit`). -/
structure Bandpass where
  wave : List ℚ
  throughput : List ℚ
  effVal : ℚ
  effUnit : LengthUnit
  wave_units : LengthUnit
deriving DecidableEq, Repr

/-- The `wave_units` setter (synphot.py lines 61-87).  All rejection
branches (the line-71 `isinstance` check, which also rejects
length-convertible `IrreducibleUnit`s such as `u.m`, and the line-76
length probe) raise `TypeError` before any mutation, so the bandpass is
returned unchanged there; on success the wavelength array is rescaled in
place (`self.convert`, line 81: multiply by current-unit factor over
new-unit factor), the effective wavelength is re-expressed in the new
unit (`self.eff.to(wave_units)`, line 84), and the new unit is recorded
(line 87). -/
def setWaveUnits (b : Bandpass) (arg : UnitArg) : Bandpass × Option PyErr :=
  match arg with
  | .nonUnit => (b, some .typeError)
  | .irredLen _ => (b, some .typeError)
  | .unitNonLen => (b, some .typeError)
  | .unitLen u =>
    ({ b with
        wave := b.wave.map fun w => w * (b.wave_units.toAA / u.toAA),
        effVal := b.effVal * (b.effUnit.toAA / u.toAA),
        effUnit := u,
        wave_units := u }, none)

/-! ## The default parameter grid (synphot.py lines 133-139) -/

/-- `np.arange(start, stop, step)` for positive `step`: the values
`start + i * step` for `i < ceil((stop - start) / step)`. -/
def arange (start stop step : ℚ) : List ℚ :=
  (List.range (⌈(stop - start) / step⌉).toNat).map fun i => start + (i : ℚ) * step

/-- One (Teff, [Fe/H], log g) triple of the model grid. -/
abbrev SpectralParams := ℚ × ℚ × ℚ

/-- `itertools.product` of three ranges, outermost first. -/
def product3 (xs ys zs : List ℚ) : List SpectralParams :=
  xs.flatMap fun x => ys.flatMap fun y => zs.map fun z => (x, y, z)

/-- The default spectra grid built on lines 135-139:
`product(arange(2000, 2550, 50), arange(-0.5, 1.0, 0.5), arange(4.5, 5.5, 0.5))`. -/
def defaultGrid : List SpectralParams :=
  product3 (arange 2000 2550 50) (arange (-0.5) 1.0 0.5) (arange 4.5 5.5 0.5)

/-- The default grid as the spec words it: the cartesian product of
Teff in 2000..2500 step 50, [Fe/H] in -0.5,0.0,0.5 and log g in 4.5,5.0,
enumerated with Teff outermost, then [Fe/H], then log g.  This definition
follows the spec's words and is compared with `defaultGrid`, which
follows the source. -/
def specDefaultGrid : List SpectralParams :=
  ([2000, 2050, 2100, 2150, 2200, 2250, 2300, 2350, 2400, 2450, 2500] : List ℚ).flatMap
    fun t => ([-0.5, 0, 0.5] : List ℚ).flatMap
      fun f => ([4.5, 5] : List ℚ).map fun g => (t, f, g)

/-! ## Bandpass-list resolution (synphot.py lines 148-154)

The comprehension `[Bandpass(filt, inst) for filt, inst in bandpasses]`
iterates the given list, unpacks each element into two names, and calls
the `Bandpass` constructor with two arguments. -/

/-- An element of an explicit `bandpasses` list: a string, or a
two-string tuple. -/
inductive BPItem where
  | pystr (s : String)
  | pytup (a b : String)
deriving DecidableEq, Repr

/-- Python unpacking `filt, inst = item`.  A tuple of two unpacks to its
components; a string unpacks into its characters and therefore needs
length exactly 2, otherwise `ValueError` is raised. -/
def unpack2 : BPItem → Except PyErr (String × String)
  | .pytup a b => .ok (a, b)
  | .pystr s =>
    match s.data with
    | [a, b] => .ok (String.mk [a], String.mk [b])
    | _ => .error .valueError

/-- The two-argument constructor call `Bandpass(filt, inst)` on line 150.
The class `Bandpass` defines `__init__(self, name)` (line 22), which
accepts exactly one argument besides `self`, so every two-argument call
raises `TypeError` before a bandpass object can exist.  (The result type
is the bandpass name a successful construction would carry.) -/
def bandpassNew2 (_filt _inst : String) : Except PyErr String :=
  .error .typeError

/-- The list comprehension on line 150: elements are consumed left to
right, each unpacked and passed to the constructor; the first raised
exception propagates. -/
def resolveBandpasses : List BPItem → Except PyErr (List String)
  | [] => .ok []
  | i :: rest => do
    let p ← unpack2 i
    let bp ← bandpassNew2 p.1 p.2
    let bps ← resolveBandpasses rest
    pure (bp :: bps)

/-! ## The grid loop, stacking and persistence (synphot.py lines 156-203) -/

/-- The one-row table built for a surviving spectrum (lines 177-186):
its parameter triple and one named magnitude per bandpass. -/
abbrev PerTable := SpectralParams × List (String × ℚ)

/-- The per-grid-point loop of lines 161-188.  `icat` models
`ps.Icat(models, teff, feh, logg)` (line 165, OUTSIDE the try block: its
exceptions propagate and abort the loop); `renorm` models
`spectrum.renorm(jmag, 'vegamag', jband)` guarded by the bare
`try/except` of lines 168-174 (`none` means the renormalization raised:
the triple is printed as a diagnostic and skipped via `continue`);
`synMag` models `synthetic_magnitude(spectrum, bp)` (line 183, a function
not defined in this module).  Returns the accumulated one-row tables and
the list of triples reported by the `except` branch's diagnostic print. -/
def magLoop {S : Type} (icat : SpectralParams → Except PyErr S)
    (renorm : S → Option S) (synMag : S → String → ℚ) (bps : List String) :
    List SpectralParams → Except PyErr (List PerTable × List SpectralParams)
  | [] => .ok ([], [])
  | t :: rest =>
    match icat t with
    | .error e => .error e
    | .ok s =>
      match renorm s with
      | none =>
        match magLoop icat renorm synMag bps rest with
        | .error e => .error e
        | .ok (tabs, diags) => .ok (tabs, t :: diags)
      | some s' =>
        match magLoop icat renorm synMag bps rest with
        | .error e => .error e
        | .ok (tabs, diags) =>
          .ok ((t, bps.map fun b => (b, synMag s' b)) :: tabs, diags)

/-- `astropy.table.vstack` applied to the accumulated list (line 191):
stacking an empty list raises `ValueError` (astropy:
"no values provided to stack."); otherwise the one-row tables are
concatenated in order. -/
def vstack (ts : List PerTable) : Except PyErr (List PerTable) :=
  match ts with
  | [] => .error .valueError
  | _ => .ok ts

/-- Lines 196-197: coerce the save path's extension to `.csv`
(`save.split('.')[0] + '.csv'` unless it already ends in `.csv`). -/
def coerceCsv (s : String) : String :=
  if s.endsWith ".csv" then s else ((s.splitOn ".").headD "") ++ ".csv"

/-- The `bandpasses` argument of `mag_table` as far as the claims reach:
an explicit Python list of items, or anything that is neither a
list/tuple nor an existing directory (which falls through to the `else`
branch of line 152: a message is printed and `None` returned).  A
directory argument is resolved by lines 142-146 into an explicit list
and is then the `pyList` case. -/
inductive BandArg where
  | pyList (items : List BPItem)
  | nonListNonDir

/-- The observable outcome of one `mag_table` call: an exception
propagated to the caller, a printed-message-and-`None` return, a file
written (and `None` returned), or a table returned. -/
inductive BuildResult where
  | raised (e : PyErr)
  | printedNone
  | saved (path : String) (t : List PerTable)
  | returned (t : List PerTable)

/-- `mag_table` (synphot.py lines 113-203).  Oracle parameters stand for
the external collaborators: `icat` for the model-spectrum fetch
(closing over `models`), `renorm` for renormalization (closing over
`jmag` and the J bandpass of line 131), `synMag` for
`synthetic_magnitude`, and `dirExistsOfSave` for
`os.path.exists(os.path.dirname(save))` on line 194.  When `save` is the
default `None`, line 194 evaluates `os.path.dirname(None)`, which raises
`TypeError` (os.fspath rejects None), before the `else: return` branch
of lines 202-203 can run. -/
def mag_table {S : Type} (icat : SpectralParams → Except PyErr S)
    (renorm : S → Option S) (synMag : S → String → ℚ)
    (spectra : Option (List SpectralParams)) (bandpasses : BandArg)
    (save : Option String) (dirExistsOfSave : String → Bool) : BuildResult :=
  let sp := spectra.getD defaultGrid
  match bandpasses with
  | .nonListNonDir => .printedNone
  | .pyList items =>
    match resolveBandpasses items with
    | .error e => .raised e
    | .ok bps =>
      match magLoop icat renorm synMag bps sp with
      | .error e => .raised e
      | .ok (tabs, _diags) =>
        match vstack tabs with
        | .error e => .raised e
        | .ok table =>
          match save with
          | none => .raised .typeError
          | some s =>
            if dirExistsOfSave s && s.contains '.' then .saved (coerceCsv s) table
            else .returned table

/-! ## Theorems -/

/-- C6: Whenever the spectra argument to `mag_table` is unspecified, the
enumerated parameter grid is exactly the cartesian product
Teff in 2000..2500 (step 50) x [Fe/H] in -0.5,0.0,0.5 x log g in 4.5,5.0,
enumerated Teff-major, then [Fe/H], then log g.  The source-side
`defaultGrid` (precisely the grid `mag_table` substitutes for an
unspecified spectra argument) equals the spec-side `specDefaultGrid`. -/
theorem default_grid_matches_spec : defaultGrid = specDefaultGrid := by
  norm_num [defaultGrid, specDefaultGrid, arange, product3, List.range, List.range.loop]

/-- C4: For every magnitude input to `mag2flux`: with the uncertainty
unset (a bare float magnitude) the returned flux uncertainty is
`FP.nan`, the "unknown" marker — a constructor of `FP` distinct from
`FP.num x` for every number `x`, in particular never the number zero;
with the uncertainty exactly 0 the returned flux uncertainty is exactly
`FP.num 0`. -/
theorem mag2flux_unset_vs_zero_uncert (zp m : ℝ) :
    mag2flux zp (.pyFloat m) = .ok (zp * (10 : ℝ) ^ (m / (-2.5)), FP.nan) ∧
    mag2flux zp (.pyPair m (.num 0))
      = .ok (zp * (10 : ℝ) ^ (m / (-2.5)), FP.num 0) := by
  refine ⟨rfl, ?_⟩
  show Except.ok (_, FP.div (FP.mul (FP.mul _ (.num 0)) _) _) = _
  simp only [FP.mul, FP.div, mul_zero, zero_mul, zero_div]

/-- C10: `mag2flux` wraps only an exact Python float magnitude into a
(value, NaN-uncertainty) pair; a bare integer magnitude is not wrapped,
the subsequent subscript `mag[0]` of the int fails with `TypeError`, and
`mag2flux` returns no result on plain integer input. -/
theorem mag2flux_int_unsubscriptable (zp : ℝ) (n : ℤ) :
    mag2flux zp (.pyInt n) = .error PyErr.typeError ∧
    (∀ m : ℝ, mag2flux zp (.pyFloat m) = mag2flux zp (.pyPair m FP.nan)) :=
  ⟨rfl, fun _ => rfl⟩

/-- C5: For every fixed bandpass and target unit with positive zero
point, `mag2flux` is strictly antitone in the magnitude value: for
magnitudes m1 < m2, the flux returned for m1 strictly exceeds the flux
returned for m2. -/
theorem mag2flux_strict_antitone (zp m1 m2 : ℝ) (hzp : 0 < zp) (h : m1 < m2)
    {f1 f2 : ℝ} {s1 s2 : FP}
    (h1 : mag2flux zp (.pyFloat m1) = .ok (f1, s1))
    (h2 : mag2flux zp (.pyFloat m2) = .ok (f2, s2)) : f2 < f1 := by
  have ef1 : zp * (10 : ℝ) ^ (m1 / (-2.5)) = f1 := congrArg Prod.fst (Except.ok.inj h1)
  have ef2 : zp * (10 : ℝ) ^ (m2 / (-2.5)) = f2 := congrArg Prod.fst (Except.ok.inj h2)
  have hexp : m2 / (-2.5 : ℝ) < m1 / (-2.5 : ℝ) := by
    have hm := mul_lt_mul_of_neg_right h (by norm_num : ((-2.5 : ℝ))⁻¹ < 0)
    simpa [div_eq_mul_inv] using hm
  have hpow : (10 : ℝ) ^ (m2 / (-2.5)) < (10 : ℝ) ^ (m1 / (-2.5)) :=
    (Real.rpow_lt_rpow_left_iff (by norm_num : (1 : ℝ) < 10)).mpr hexp
  calc f2 = zp * (10 : ℝ) ^ (m2 / (-2.5)) := ef2.symm
    _ < zp * (10 : ℝ) ^ (m1 / (-2.5)) := mul_lt_mul_of_pos_left hpow hzp
    _ = f1 := ef1

/-- Witness for `mag2flux_strict_antitone` at zp = 1, m1 = 0, m2 = 1. -/
theorem mag2flux_strict_antitone_witness :
    ∃ p1 p2 : ℝ × FP, mag2flux 1 (.pyFloat 0) = .ok p1 ∧
      mag2flux 1 (.pyFloat 1) = .ok p2 ∧ p2.1 < p1.1 := by
  refine ⟨_, _, rfl, rfl, ?_⟩
  exact mag2flux_strict_antitone 1 0 1 (by norm_num) (by norm_num) rfl rfl


/-- C7: For every `Bandpass` instance and every assignment to
`wave_units` with an argument that is not a length-convertible unit
(a unit of a non-length dimension, or a non-unit object), the setter
raises a TypeError-class condition and the bandpass is left unmodified:
wavelength array, effective wavelength and current unit all unchanged.
The theorem covers every argument other than an accepted-class length
unit — a superset of the claim's domain that also includes the
length-convertible `IrreducibleUnit`s rejected by the line-71
`isinstance` check. -/
theorem wave_units_rejects_non_length (b : Bandpass) (arg : UnitArg)
    (h : ∀ u, arg ≠ UnitArg.unitLen u) :
    setWaveUnits b arg = (b, some PyErr.typeError) := by
  cases arg with
  | unitLen u => exact absurd rfl (h u)
  | irredLen u => rfl
  | unitNonLen => rfl
  | nonUnit => rfl

/-- A sample bandpass state used by concrete witnesses. -/
def sampleBandpass : Bandpass :=
  { wave := [1, 2], throughput := [1, 1], effVal := 3 / 2,
    effUnit := ⟨1⟩, wave_units := ⟨1⟩ }

/-- Witness for `wave_units_rejects_non_length`: a frequency-like unit
argument on a concrete bandpass. -/
theorem wave_units_rejects_non_length_witness :
    setWaveUnits sampleBandpass UnitArg.unitNonLen =
      (sampleBandpass, some PyErr.typeError) :=
  wave_units_rejects_non_length sampleBandpass UnitArg.unitNonLen
    (fun _ h => UnitArg.noConfusion h)

/-- C8 (counterexample): the meter is a valid length unit (convertible
to a length dimension, exchange rate 10^10 angstrom), but it is an
astropy `IrreducibleUnit`, which the `isinstance` check on line 71
rejects.  So setting `wave_units` to B = meter raises `TypeError`
instead of rescaling: the A-to-B leg of the round trip never happens,
refuting the claim as stated ("for every pair of valid length units A
and B").  The bandpass is left in unit A, unmodified. -/
theorem wave_units_roundtrip_counterexample :
    setWaveUnits sampleBandpass (UnitArg.irredLen ⟨10000000000⟩)
      = (sampleBandpass, some PyErr.typeError) :=
  rfl

/-- C8 (amended): For every `Bandpass` and every pair of valid length
units A (the current unit) and B OF THE CLASSES THE LINE-71 GUARD
ACCEPTS (`PrefixUnit`/`Unit`/`CompositeUnit` — not `IrreducibleUnit`,
whose length units the setter rejects, see
`wave_units_roundtrip_counterexample`), setting `wave_units` to B and
back to A restores the original wavelength array (exactly, in this
exact-rational model, hence within floating-point tolerance), and the
effective wavelength round-trips exactly as a physical value: it ends
expressed in unit A with the same physical (unit-weighted) value. -/
theorem wave_units_roundtrip (b : Bandpass) (B : LengthUnit)
    (hA : 0 < b.wave_units.toAA) (hB : 0 < B.toAA) :
    (setWaveUnits (setWaveUnits b (.unitLen B)).1 (.unitLen b.wave_units)).1.wave = b.wave ∧
    (setWaveUnits (setWaveUnits b (.unitLen B)).1 (.unitLen b.wave_units)).1.wave_units
      = b.wave_units ∧
    (setWaveUnits (setWaveUnits b (.unitLen B)).1 (.unitLen b.wave_units)).1.effUnit
      = b.wave_units ∧
    (setWaveUnits (setWaveUnits b (.unitLen B)).1 (.unitLen b.wave_units)).1.effVal
        * b.wave_units.toAA
      = b.effVal * b.effUnit.toAA := by
  have hA' : b.wave_units.toAA ≠ 0 := ne_of_gt hA
  have hB' : B.toAA ≠ 0 := ne_of_gt hB
  refine ⟨?_, rfl, rfl, ?_⟩
  · show (b.wave.map fun w => w * (b.wave_units.toAA / B.toAA)).map
        (fun w => w * (B.toAA / b.wave_units.toAA)) = b.wave
    rw [List.map_map]
    have hid : ∀ w : ℚ,
        ((fun w => w * (B.toAA / b.wave_units.toAA)) ∘
          fun w => w * (b.wave_units.toAA / B.toAA)) w = w := by
      intro w
      simp only [Function.comp_apply]
      field_simp
    calc b.wave.map ((fun w => w * (B.toAA / b.wave_units.toAA)) ∘
          fun w => w * (b.wave_units.toAA / B.toAA))
        = b.wave.map id := List.map_congr_left fun w _ => hid w
      _ = b.wave := List.map_id b.wave
  · show b.effVal * (b.effUnit.toAA / B.toAA) * (B.toAA / b.wave_units.toAA)
        * b.wave_units.toAA = b.effVal * b.effUnit.toAA
    field_simp

/-- Witness for `wave_units_roundtrip`: the sample bandpass (current
unit factor 1) converted to a unit with factor 10 and back. -/
theorem wave_units_roundtrip_witness :
    (setWaveUnits (setWaveUnits sampleBandpass (.unitLen ⟨10⟩)).1
        (.unitLen sampleBandpass.wave_units)).1.wave = sampleBandpass.wave ∧
    (setWaveUnits (setWaveUnits sampleBandpass (.unitLen ⟨10⟩)).1
        (.unitLen sampleBandpass.wave_units)).1.wave_units = sampleBandpass.wave_units ∧
    (setWaveUnits (setWaveUnits sampleBandpass (.unitLen ⟨10⟩)).1
        (.unitLen sampleBandpass.wave_units)).1.effUnit = sampleBandpass.wave_units ∧
    (setWaveUnits (setWaveUnits sampleBandpass (.unitLen ⟨10⟩)).1
        (.unitLen sampleBandpass.wave_units)).1.effVal * sampleBandpass.wave_units.toAA
      = sampleBandpass.effVal * sampleBandpass.effUnit.toAA :=
  wave_units_roundtrip sampleBandpass ⟨10⟩ (by norm_num [sampleBandpass]) (by norm_num)

/-- Helper: with a spectrum fetch that succeeds on every triple, the
grid loop returns exactly one row per triple whose renormalization
succeeds, in enumeration order, and one diagnostic per triple whose
renormalization fails. -/
theorem magLoop_characterization {S : Type} (fetch : SpectralParams → S)
    (renorm : S → Option S) (synMag : S → String → ℚ) (bps : List String)
    (spectra : List SpectralParams) :
    magLoop (fun t => .ok (fetch t)) renorm synMag bps spectra =
      .ok ((spectra.filter fun t => (renorm (fetch t)).isSome).map
            (fun t => (t, bps.map fun b =>
              (b, synMag ((renorm (fetch t)).getD (fetch t)) b))),
          spectra.filter fun t => (renorm (fetch t)).isNone) := by
  induction spectra with
  | nil => rfl
  | cons t rest ih =>
    cases h : renorm (fetch t) with
    | none =>
      simp only [magLoop, h, ih, List.filter_cons, Option.isSome_none, Option.isNone_none,
        Bool.false_eq_true, if_false, if_true, List.map_cons]
    | some s' =>
      simp only [magLoop, h, ih, List.filter_cons, Option.isSome_some, Option.isNone_some,
        Bool.false_eq_true, if_false, if_true, List.map_cons, Option.getD_some]

/-- C9: For every grid point whose spectrum renormalization fails during
the build's grid loop, that SpectralParams triple is skipped entirely, a
diagnostic for it is emitted, and the loop continues processing the
remaining triples.  The loop succeeds with rows that are EXACTLY the
rows of the triples whose renormalization succeeds, in enumeration order
— since `renorm (fetch t0) = none`, no row (partial or otherwise) for
`t0` passes that filter — and the failing triple `t0` appears in the
emitted diagnostics, which are exactly the failing triples. -/
theorem magLoop_skips_failed_triples {S : Type} (fetch : SpectralParams → S)
    (renorm : S → Option S) (synMag : S → String → ℚ) (bps : List String)
    (spectra : List SpectralParams) (t0 : SpectralParams)
    (hmem : t0 ∈ spectra) (hfail : renorm (fetch t0) = none) :
    magLoop (fun t => .ok (fetch t)) renorm synMag bps spectra =
      .ok ((spectra.filter fun t => (renorm (fetch t)).isSome).map
            (fun t => (t, bps.map fun b =>
              (b, synMag ((renorm (fetch t)).getD (fetch t)) b))),
          spectra.filter fun t => (renorm (fetch t)).isNone) ∧
    t0 ∈ spectra.filter fun t => (renorm (fetch t)).isNone :=
  ⟨magLoop_characterization fetch renorm synMag bps spectra,
   List.mem_filter.mpr ⟨hmem, by simp [hfail]⟩⟩

/-- Concrete renormalization oracle for the loop witnesses: fails on
(2000, 0, 5), succeeds elsewhere. -/
def wRenorm : SpectralParams → Option SpectralParams :=
  fun t => if t = ((2000 : ℚ), (0 : ℚ), (5 : ℚ)) then none else some t

/-- Witness for `magLoop_skips_failed_triples`: a two-triple grid where
the first triple's renormalization fails. -/
theorem magLoop_skips_failed_triples_witness :
    magLoop (fun t => .ok t) wRenorm (fun _ _ => 0) ["J"]
        [((2000 : ℚ), (0 : ℚ), (5 : ℚ)), ((2100 : ℚ), (0 : ℚ), (5 : ℚ))] =
      .ok (([((2000 : ℚ), (0 : ℚ), (5 : ℚ)), ((2100 : ℚ), (0 : ℚ), (5 : ℚ))].filter
              fun t => (wRenorm t).isSome).map
            (fun t => (t, ["J"].map fun b =>
              (b, (fun (_ : SpectralParams) (_ : String) => (0 : ℚ)) ((wRenorm t).getD t) b))),
          [((2000 : ℚ), (0 : ℚ), (5 : ℚ)), ((2100 : ℚ), (0 : ℚ), (5 : ℚ))].filter
            fun t => (wRenorm t).isNone) ∧
    ((2000 : ℚ), (0 : ℚ), (5 : ℚ)) ∈
      [((2000 : ℚ), (0 : ℚ), (5 : ℚ)), ((2100 : ℚ), (0 : ℚ), (5 : ℚ))].filter
        fun t => (wRenorm t).isNone :=
  magLoop_skips_failed_triples (fun t => t) wRenorm (fun _ _ => 0) ["J"]
    [((2000 : ℚ), (0 : ℚ), (5 : ℚ)), ((2100 : ℚ), (0 : ℚ), (5 : ℚ))]
    ((2000 : ℚ), (0 : ℚ), (5 : ℚ)) (List.mem_cons_self _ _) (if_pos rfl)

/-- C1 (amended): if every grid point fails normalization, the build
does not return a table: the stack step (astropy `vstack` on the empty
list of accumulated tables, line 191) raises `ValueError`, which
propagates out of `mag_table`. -/
theorem mag_table_all_fail_raises {S : Type} (fetch : SpectralParams → S)
    (renorm : S → Option S) (synMag : S → String → ℚ)
    (spectra : List SpectralParams) (save : Option String)
    (dirExistsOfSave : String → Bool)
    (hall : ∀ t ∈ spectra, renorm (fetch t) = none) :
    mag_table (fun t => .ok (fetch t)) renorm synMag (some spectra) (.pyList [])
        save dirExistsOfSave = .raised PyErr.valueError := by
  have hrows : (spectra.filter fun t => (renorm (fetch t)).isSome) = [] := by
    rw [List.filter_eq_nil_iff]
    intro t ht
    simp [hall t ht]
  simp only [mag_table, Option.getD_some, resolveBandpasses]
  rw [magLoop_characterization fetch renorm synMag [] spectra, hrows]
  rfl

/-- Witness for `mag_table_all_fail_raises`: a one-triple grid whose
only renormalization fails. -/
theorem mag_table_all_fail_raises_witness :
    mag_table (S := SpectralParams) (fun t => .ok t) (fun _ => none) (fun _ _ => 0)
        (some [((2100 : ℚ), (0 : ℚ), (5 : ℚ))]) (.pyList []) none (fun _ => false)
      = .raised PyErr.valueError :=
  mag_table_all_fail_raises (fun t => t) (fun _ => none) (fun _ _ => 0)
    [((2100 : ℚ), (0 : ℚ), (5 : ℚ))] none (fun _ => false) (fun _ _ => rfl)

/-- C1 (counterexample): a concrete invocation in which every grid point
fails normalization.  The claim says the build returns an empty table
rather than raising; in fact it raises `ValueError` and returns no table
at all. -/
theorem mag_table_all_fail_counterexample :
    mag_table (S := SpectralParams) (fun t => .ok t) (fun _ => none) (fun _ _ => 0)
        (some [((2000 : ℚ), (0 : ℚ), (5 : ℚ))]) (.pyList []) none (fun _ => false)
      = .raised PyErr.valueError :=
  rfl

/-- C2 (code evaluated at the failing input): with no save argument
(the default `save=None`) and a grid point that renormalizes
successfully, `mag_table` does not return the built table: line 194
evaluates `os.path.dirname(None)`, which raises `TypeError`. -/
theorem mag_table_default_save_raises :
    mag_table (S := SpectralParams) (fun t => .ok t) (fun s => some s) (fun _ _ => 0)
        (some [((2000 : ℚ), (0 : ℚ), (5 : ℚ))]) (.pyList []) none (fun _ => false)
      = .raised PyErr.typeError :=
  rfl

/-- C3 (code evaluated at the failing input): the documented example
grid=[(2000,0.0,5.0)], bandpasses=['J'] does not produce a one-row
table: unpacking the 1-character string 'J' into `(filt, inst)` raises
`ValueError` (line 150), and even an explicit (filter, instrument) pair
raises `TypeError`, because `Bandpass.__init__` (line 22) accepts a
single name but is called with two arguments. -/
theorem mag_table_single_J_raises :
    mag_table (S := SpectralParams) (fun t => .ok t) (fun s => some s) (fun _ _ => 0)
        (some [((2000 : ℚ), (0 : ℚ), (5 : ℚ))]) (.pyList [.pystr "J"]) none (fun _ => false)
      = .raised PyErr.valueError ∧
    mag_table (S := SpectralParams) (fun t => .ok t) (fun s => some s) (fun _ _ => 0)
        (some [((2000 : ℚ), (0 : ℚ), (5 : ℚ))]) (.pyList [.pytup "J" "2MASS"]) none
        (fun _ => false)
      = .raised PyErr.typeError :=
  ⟨rfl, rfl⟩
